import Mathlib

/-!
# A shallow embedding of the Ray component syncer
  (`src/ray/common/component_syncer.h`, namespace `ray::syncing`)

The embedding models:

* the data model (`RaySyncMessage`, the store
  `cluster_messages_ : from_node_id → ((node_id, component) → message)`);
* the `RaySyncer` facade (`Register`, `Accept`, `AddNode`, `GetNodeId`,
  `Update`, `SyncMessages`, the `followers_` table);
* the per-stream `Protocol` state machine (`OnReadDone`, `OnWriteDone`,
  `SendMessage`), the reactors' `OnDone`, and the service adapter
  `RaySyncerService::StartSync`;
* a timed writer-loop machine used for the temporal properties of the
  cool-down timer.

`RaySyncer::Update` and `RaySyncer::SyncMessages` are declared in the header
but defined in a translation unit that is not part of the sources; those two
operations are modelled from the specification (see their doc comments).
Machine integers (`version` is a `u64`) are modelled as `Nat`: no claim here
depends on overflow behaviour.

Threading is modelled away: every callback body that the source posts onto
the `io_context_` executor is embedded as the state transformation it
performs there, and the grpc / timer operations a callback starts are
returned as explicit effects.
-/

namespace RaySyncing

/-- `ray::rpc::syncer::RaySyncMessage`: `node_id` is the origin node that
produced the snapshot, `component_id` the component slot, `version` the
producer's monotone version, `sync_message` the opaque payload. -/
structure RaySyncMessage where
  node_id : String
  component_id : Nat
  version : Nat
  sync_message : String
deriving DecidableEq, Repr

/-- The store key `(origin node, component)` of a message
(`std::pair<std::string, RayComponentId>` in the source). -/
abbrev MsgKey := String × Nat

/-- Key of a message: `(m.node_id, m.component_id)`. -/
def RaySyncMessage.key (m : RaySyncMessage) : MsgKey :=
  (m.node_id, m.component_id)

/-- Association-list lookup by decidable equality (the flat hash maps of the
source are modelled as association lists with at most one binding per key). -/
def alookup {α β : Type} [DecidableEq α] : List (α × β) → α → Option β
  | [], _ => none
  | (k, b) :: t, a => if k = a then some b else alookup t a

/-- `NodeIndexedMessages`: one viewer's sub-map `(origin, component) → message`. -/
abbrev NodeIndexedMessages := List (MsgKey × RaySyncMessage)

/-- The store `cluster_messages_`: `from_node_id → NodeIndexedMessages`. -/
abbrev Store := List (String × NodeIndexedMessages)

/-- Remove every binding for key `a` from an association list. -/
def eraseKey {α β : Type} [DecidableEq α] (a : α) :
    List (α × β) → List (α × β)
  | [] => []
  | (k, b) :: t => if k = a then eraseKey a t else (k, b) :: eraseKey a t

/-- Insert-or-assign into a viewer sub-map, keeping one binding per key. -/
def nimInsert (l : NodeIndexedMessages) (k : MsgKey) (m : RaySyncMessage) :
    NodeIndexedMessages :=
  (k, m) :: eraseKey k l

/-- Rewrite every viewer's sub-map, keeping the viewer keys
(the shape that `Update` and `SyncMessages` share). -/
def mapVals (g : String → NodeIndexedMessages → NodeIndexedMessages)
    (st : Store) : Store :=
  st.map (fun p => (p.1, g p.1 p.2))

/-- Insert-or-assign a whole viewer sub-map
(`cluster_messages_[node_id] = ...` via `operator[]`). -/
def setViewer (st : Store) (v : String) (nim : NodeIndexedMessages) : Store :=
  (v, nim) :: eraseKey v st

/-- The message stored for key `k` in viewer `v`'s sub-map, if any. -/
def viewerFind (st : Store) (v : String) (k : MsgKey) : Option RaySyncMessage :=
  (alookup st v).bind (fun nim => alookup nim k)

/-- Maximum of two optional versions. -/
def omax : Option Nat → Option Nat → Option Nat
  | none, b => b
  | some a, none => some a
  | some a, some b => some (max a b)

/-- The latest-known version for `k` across the whole store (a scan over
every viewer's sub-map, per the spec's integration rule). -/
def storeLatest (st : Store) (k : MsgKey) : Option Nat :=
  st.foldr (fun p acc => omax ((alookup p.2 k).map (·.version)) acc) none

/-- `true` iff `v` is strictly greater than the latest-known version
(when no version is known, any incoming version is accepted). -/
def newerThan (v : Nat) : Option Nat → Bool
  | none => true
  | some x => decide (x < v)

/-- A local reporter: `Snapshot()` is modelled by the snapshot it returns. -/
structure Reporter where
  snapshot : RaySyncMessage
deriving DecidableEq, Repr

/-- A local receiver (opaque to every claim; identified by an id). -/
structure Receiver where
  id : Nat
deriving DecidableEq, Repr

/-- The `RaySyncer` facade state: the local node id, the message store
`cluster_messages_`, the `followers_` reactor table (reactors are modelled by
`Nat` handles), and the component-indexed registry slots. -/
structure RaySyncerState where
  node_id_ : String
  cluster_messages_ : Store
  followers_ : List (String × Nat)
  reporters_ : Nat → Option Reporter
  receivers_ : Nat → Option Receiver

/-- `RaySyncer::GetNodeId`. -/
def GetNodeId (s : RaySyncerState) : String := s.node_id_

/-- `RaySyncer::Register`: unconditionally assigns both slots
(`reporters_[component_id] = reporter; receivers_[component_id] = receiver;`). -/
def Register (s : RaySyncerState) (component_id : Nat)
    (reporter : Option Reporter) (receiver : Option Receiver) : RaySyncerState :=
  { s with reporters_ := Function.update s.reporters_ component_id reporter,
           receivers_ := Function.update s.receivers_ component_id receiver }

/-- `RaySyncer::AddNode`: `cluster_messages_[node_id] = NodeIndexedMessages()`. -/
def AddNode (s : RaySyncerState) (node_id : String) : RaySyncerState :=
  { s with cluster_messages_ := setViewer s.cluster_messages_ node_id [] }

/-- `RaySyncer::Accept`: builds a fresh reactor (handle `fresh`), registers
it with `followers_.emplace(node_id, ...)` — which inserts only when the key
is absent — calls `AddNode(node_id)`, and returns `followers_[node_id].get()`,
the reactor now found in the table. -/
def Accept (s : RaySyncerState) (node_id : String) (fresh : Nat) :
    RaySyncerState × Nat :=
  let followers' :=
    match alookup s.followers_ node_id with
    | some _ => s.followers_
    | none => (node_id, fresh) :: s.followers_
  let s' := AddNode { s with followers_ := followers' } node_id
  (s', (alookup followers' node_id).getD fresh)

/-- Modelled from the spec: `RaySyncer::Update(from_node_id, message)` is
declared in the header but its body lives in a missing translation unit.
Per §4.2 `Ingest(from, m)`: look up the latest-known version for
`key = (m.origin_node, m.component)` across the store; if `m.version` is not
strictly greater, discard; otherwise write `store[v][key] = m` for every
viewer `v` with `v ≠ m.origin_node` and `v ≠ from`. (Delivery to a local
receiver mutates no syncer state and is not modelled.) -/
def Update1 (s : RaySyncerState) (from_node_id : String) (m : RaySyncMessage) :
    RaySyncerState :=
  if newerThan m.version (storeLatest s.cluster_messages_ m.key) then
    { s with cluster_messages_ :=
        mapVals (fun v nim =>
          if v ≠ m.node_id ∧ v ≠ from_node_id then nimInsert nim m.key m
          else nim) s.cluster_messages_ }
  else s

/-- Modelled from the spec: the batch overload
`RaySyncer::Update(from_node_id, messages)` is "a thin wrapper that posts
each message through `Store.Ingest`". -/
def UpdateB (s : RaySyncerState) (from_node_id : String)
    (msgs : List RaySyncMessage) : RaySyncerState :=
  msgs.foldl (fun s m => Update1 s from_node_id m) s

/-- Modelled from the spec: `RaySyncer::SyncMessages(node_id)` is
`DrainFor(v)` — "return and remove every message currently queued for viewer
`v`" (the sub-map itself stays, emptied; `RemoveViewer` would drop it). -/
def SyncMessages (s : RaySyncerState) (node_id : String) :
    List RaySyncMessage × RaySyncerState :=
  let buf := ((alookup s.cluster_messages_ node_id).getD []).map (·.2)
  let st := mapVals (fun v nim => if v = node_id then [] else nim)
    s.cluster_messages_
  (buf, { s with cluster_messages_ := st })

/-- `SyncerClientReactor::OnDone` / `SyncerServerReactor::OnDone`: the work
both post to the executor is exactly `followers_.erase(node_id)`. -/
def reactorOnDone (s : RaySyncerState) (node_id : String) : RaySyncerState :=
  { s with followers_ := eraseKey node_id s.followers_ }

/-- The operations a test driver may run against the syncer's store
(`Update` single messages, `SyncMessages` drains, `AddNode`). -/
inductive SyncOp where
  | update (from_node_id : String) (m : RaySyncMessage)
  | drain (node_id : String)
  | addNode (node_id : String)
deriving DecidableEq, Repr

/-- Run one operation. -/
def applyOp (s : RaySyncerState) : SyncOp → RaySyncerState
  | .update f m => Update1 s f m
  | .drain v => (SyncMessages s v).2
  | .addNode v => AddNode s v

/-- Run a sequence of operations. -/
def runOps (s : RaySyncerState) (ops : List SyncOp) : RaySyncerState :=
  ops.foldl applyOp s

/-- The syncer right after construction: empty store, no followers,
no registered components. -/
def initialState (nid : String) : RaySyncerState :=
  ⟨nid, [], [], fun _ => none, fun _ => none⟩

/-! ## The per-stream `Protocol<T>` state machine

A callback's state change is embedded directly; the grpc calls and timer
operations it starts are returned as a list of `Eff` effects. -/

/-- Effects a `Protocol` callback asks the runtime to perform. -/
inductive Eff where
  /-- `StartRead(&in_message)`: re-arm the read. -/
  | startRead
  /-- `StartWrite(out_message)` of one `RaySyncMessages` frame. -/
  | startWrite (frame : List RaySyncMessage)
  /-- Arm the cool-down deadline timer for `ms` milliseconds; on expiry
  (if not cancelled) the timer runs `SendMessage`. -/
  | armTimer (ms : Nat)
  /-- `io_context_.dispatch([this] { SendMessage(); })`. -/
  | dispatchSendMessage
deriving DecidableEq, Repr

/-- The mutable pieces of `Protocol<T>` the claims touch: the owning syncer
(`instance`), the peer `node_id`, the inbound frame, the outbound frame and
the drained `buffer`. -/
structure ProtocolState where
  inst : RaySyncerState
  node_id : String
  in_message : List RaySyncMessage
  out_message : List RaySyncMessage
  buffer : List RaySyncMessage

/-- `Protocol::OnReadDone(ok)`: on success the executor runs
`Update(node_id, in_message); in_message.Clear(); StartRead(&in_message)`;
on failure only `StartRead(&in_message)`. -/
def OnReadDone (ok : Bool) (p : ProtocolState) : ProtocolState × List Eff :=
  if ok then
    ({ p with inst := UpdateB p.inst p.node_id p.in_message, in_message := [] },
     [.startRead])
  else (p, [.startRead])

/-- `Protocol::OnWriteDone(ok)`: on success arm the 100 ms cool-down timer
(its callback runs `SendMessage` unless the wait was aborted); on failure
dispatch `SendMessage` on the executor right away. -/
def OnWriteDone (ok : Bool) (p : ProtocolState) : ProtocolState × List Eff :=
  if ok then (p, [.armTimer 100]) else (p, [.dispatchSendMessage])

/-- The collect phase of `Protocol::SendMessage`: for every component index
`i < kComponentArraySize`, if `reporters_[i]` is bound,
`Update(GetNodeId(), reporters_[i]->Snapshot())`. `kArraySize` stands for the
schema constant `kComponentArraySize` (the proto enum size is not among the
sources, so the loop bound is kept as a parameter). -/
def collectReports (kArraySize : Nat) (s : RaySyncerState) : RaySyncerState :=
  (List.range kArraySize).foldl
    (fun s i =>
      match s.reporters_ i with
      | none => s
      | some r => Update1 s (GetNodeId s) r.snapshot) s

/-- `Protocol::SendMessage`: collect reporter snapshots, drain
`buffer = SyncMessages(node_id)`; if the buffer is empty behave as
`OnWriteDone(true)` (arm the cool-down), otherwise reset `out_message`, fill
it from the buffer and `StartWrite`. -/
def SendMessage (kArraySize : Nat) (p : ProtocolState) :
    ProtocolState × List Eff :=
  let s1 := collectReports kArraySize p.inst
  let buf := (SyncMessages s1 p.node_id).1
  let s2 := (SyncMessages s1 p.node_id).2
  let p1 := { p with inst := s2, buffer := buf }
  if buf.isEmpty then OnWriteDone true p1
  else ({ p1 with out_message := buf }, [.startWrite buf])

/-! ## The RPC service adapter -/

/-- Outcome of `RaySyncerService::StartSync`: either the `RAY_CHECK` on the
`node_id` metadata fails (a fatal check aborting the process — no status is
returned to the client and no reactor is created), or the adapter attaches
the response initial metadata and hands back the reactor from
`syncer_.Accept`. -/
inductive StartSyncResult where
  | fatalCheck
  | reactor (s : RaySyncerState) (handle : Nat)
      (responseMetadata : List (String × String))

/-- `RaySyncerService::StartSync`: look up `node_id` in the client metadata;
`RAY_CHECK` that it is present; `AddInitialMetadata("node_id", GetNodeId())`;
return `syncer_.Accept(node_id)` (reactor handle `fresh`). -/
def StartSync (s : RaySyncerState) (clientMetadata : List (String × String))
    (fresh : Nat) : StartSyncResult :=
  match alookup clientMetadata "node_id" with
  | none => .fatalCheck
  | some nid =>
      .reactor (Accept s nid fresh).1 (Accept s nid fresh).2
        [("node_id", GetNodeId s)]

/-! ## A timed writer-loop machine

Wraps one reactor's writer loop with a millisecond clock to state the
cool-down properties. The environment (grpc and the other work running on
the executor) supplies, per step, the messages other links ingest while the
reactor waits, the completion delay of an in-flight write, and its outcome. -/

/-- What the writer loop is currently waiting for. -/
inductive Waiting where
  /-- A `StartWrite` is in flight; next event is `OnWriteDone`. -/
  | onWrite
  /-- The cool-down timer is armed; it fires at `deadline`. -/
  | onTimer (deadline : Nat)
deriving DecidableEq, Repr

/-- One reactor's writer loop plus a clock. -/
structure WriterMachine where
  proto : ProtocolState
  now : Nat
  waiting : Waiting

/-- Environment input for one writer step: `inject` are `Update` calls other
links run on the executor before our event, `delay` the time until an
in-flight write completes, `ok` its outcome. -/
structure OracleInput where
  inject : List (String × RaySyncMessage)
  delay : Nat
  ok : Bool

/-- Run `SendMessage` at the machine's current time, interpreting its
effects: `startWrite` emits a write (timestamped `now`) and waits for its
completion; `armTimer ms` waits for the deadline `now + ms`. -/
def runSend (kArraySize : Nat) (m : WriterMachine) : WriterMachine × List Nat :=
  match (SendMessage kArraySize m.proto).2 with
  | [.startWrite _] =>
      ({ m with proto := (SendMessage kArraySize m.proto).1,
                waiting := .onWrite }, [m.now])
  | [.armTimer ms] =>
      ({ m with proto := (SendMessage kArraySize m.proto).1,
                waiting := .onTimer (m.now + ms) }, [])
  | _ => ({ m with proto := (SendMessage kArraySize m.proto).1 }, [])

/-- One step of the timed writer loop: deliver the injected updates, then
the awaited event. A firing timer runs `SendMessage` at its deadline; a
completing write runs `OnWriteDone` at `now + delay` — success arms the
100 ms cool-down, failure re-runs `SendMessage` immediately. -/
def stepW (kArraySize : Nat) (m : WriterMachine) (o : OracleInput) :
    WriterMachine × List Nat :=
  let m1 : WriterMachine :=
    { m with proto := { m.proto with
        inst := o.inject.foldl (fun s fm => Update1 s fm.1 fm.2) m.proto.inst } }
  match m.waiting with
  | .onTimer d => runSend kArraySize { m1 with now := d }
  | .onWrite =>
      if o.ok then
        ({ m1 with now := m.now + o.delay,
                   waiting := .onTimer (m.now + o.delay + 100) }, [])
      else runSend kArraySize { m1 with now := m.now + o.delay }

/-- The timestamps of the write events a run of the writer loop emits. -/
def writeTimes (kArraySize : Nat) (m : WriterMachine) :
    List OracleInput → List Nat
  | [] => []
  | o :: os =>
      (stepW kArraySize m o).2 ++
        writeTimes kArraySize (stepW kArraySize m o).1 os

/-- The earliest time at which the writer loop can emit its next write: now
when a write is in flight, the armed deadline when cooling down. -/
def machineLB (m : WriterMachine) : Nat :=
  match m.waiting with
  | .onWrite => m.now
  | .onTimer d => d

/-! ## Concrete fixtures

Small concrete states and messages used by the counterexamples and
witnesses below. -/

/-- Snapshot of origin `C`, component 0, version 5. -/
def mv5 : RaySyncMessage := ⟨"C", 0, 5, "p5"⟩

/-- Snapshot of origin `C`, component 0, version 7. -/
def mv7 : RaySyncMessage := ⟨"C", 0, 7, "p7"⟩

/-- Snapshot of origin `A`, component 0, version 4 (stale next to version 5). -/
def m4A : RaySyncMessage := ⟨"A", 0, 4, "p4"⟩

/-- Snapshot of origin `A`, component 0, version 5. -/
def m5A : RaySyncMessage := ⟨"A", 0, 5, "p5"⟩

/-- Snapshot of origin `A`, component 0, version 1. -/
def mA1 : RaySyncMessage := ⟨"A", 0, 1, "a1"⟩

/-- A syncer on node `H` whose store queues `m5A` for viewer `B`. -/
def sC1w : RaySyncerState :=
  ⟨"H", [("B", [(("A", 0), m5A)])], [], fun _ => none, fun _ => none⟩

/-- The operation sequence of the version counterexample: viewers `W`, `X`,
`Y`; version 5 of `(C, 0)` arrives from `X`, version 7 from `Y`. -/
def opsC1 : List SyncOp :=
  [.addNode "W", .addNode "X", .addNode "Y",
   .update "X" mv5, .update "Y" mv7]

/-- A syncer on node `H` with two known (empty) viewers `B` and `X`. -/
def sC2w : RaySyncerState :=
  ⟨"H", [("B", []), ("X", [])], [], fun _ => none, fun _ => none⟩

/-- A hub on node `H` with viewer `A` and an old reactor (handle 1)
registered for `A`. -/
def sC3 : RaySyncerState :=
  ⟨"H", [("A", [])], [("A", 1)], fun _ => none, fun _ => none⟩

/-- A hub on node `B` with a message queued for viewer `A` and a live
reactor for `A`. -/
def sC4 : RaySyncerState :=
  ⟨"B", [("A", [(("C", 0), mv5)])], [("A", 1)], fun _ => none, fun _ => none⟩

/-- A freshly constructed syncer on node `B`. -/
def sC5 : RaySyncerState := initialState "B"

/-- A reporter whose snapshot has version 1. -/
def r1C6 : Reporter := ⟨⟨"H", 0, 1, "x"⟩⟩

/-- A reporter whose snapshot has version 2. -/
def r2C6 : Reporter := ⟨⟨"H", 0, 2, "y"⟩⟩

/-- A reactor for peer `A` on a hub (node `B`) that still holds the peer's
viewer sub-map and its `followers_` entry. -/
def pC7 : ProtocolState :=
  ⟨⟨"B", [("A", [])], [("A", 1)], fun _ => none, fun _ => none⟩,
   "A", [], [], []⟩

/-- A reactor for peer `A` on a freshly constructed syncer (nothing queued). -/
def pC8 : ProtocolState := ⟨initialState "H", "A", [], [], []⟩

/-- First inbound snapshot of the write-retry run: `(C, 0)` version 1. -/
def mq1 : RaySyncMessage := ⟨"C", 0, 1, "q1"⟩

/-- Second inbound snapshot of the write-retry run: `(C, 0)` version 2. -/
def mq2 : RaySyncMessage := ⟨"C", 0, 2, "q2"⟩

/-- A reactor for peer `A` whose store already queues `mq1` for `A`. -/
def pC9 : ProtocolState :=
  ⟨⟨"H", [("A", [(("C", 0), mq1)])], [], fun _ => none, fun _ => none⟩,
   "A", [], [], []⟩

/-- The writer machine of that reactor, with the cool-down timer about to
fire at time 0. -/
def mC9 : WriterMachine := ⟨pC9, 0, .onTimer 0⟩

/-- The same writer loop waiting on an in-flight write at time 0. -/
def mC9w : WriterMachine := ⟨pC9, 0, .onWrite⟩

/-- Oracle input: nothing injected, the awaited event happens immediately,
the write failed (unused for a timer event). -/
def oC9a : OracleInput := ⟨[], 0, false⟩

/-- Oracle input: another link ingests `mq2` from `B` while the write is in
flight; after 10 ms the write completes with failure. -/
def oC9b : OracleInput := ⟨[("B", mq2)], 10, false⟩

/-! ## Lookup lemmas -/

lemma alookup_cons {α β : Type} [DecidableEq α] (k : α) (b : β)
    (t : List (α × β)) (a : α) :
    alookup ((k, b) :: t) a = if k = a then some b else alookup t a := rfl

lemma alookup_eraseKey_self {α β : Type} [DecidableEq α] (a : α)
    (l : List (α × β)) : alookup (eraseKey a l) a = none := by
  induction l with
  | nil => rfl
  | cons p t ih =>
    obtain ⟨k, b⟩ := p
    by_cases h : k = a
    · simpa [eraseKey, h] using ih
    · simpa [eraseKey, h, alookup_cons] using ih

lemma alookup_eraseKey_ne {α β : Type} [DecidableEq α] (a a' : α)
    (l : List (α × β)) (h : a' ≠ a) :
    alookup (eraseKey a l) a' = alookup l a' := by
  induction l with
  | nil => rfl
  | cons p t ih =>
    obtain ⟨k, b⟩ := p
    by_cases hk : k = a
    · have : k ≠ a' := fun hh => h (hh ▸ hk)
      simp only [eraseKey, if_pos hk, alookup_cons, if_neg this, ih]
    · simp only [eraseKey, if_neg hk, alookup_cons, ih]

lemma alookup_nimInsert (l : NodeIndexedMessages) (k : MsgKey)
    (m : RaySyncMessage) (k' : MsgKey) :
    alookup (nimInsert l k m) k' = if k = k' then some m else alookup l k' := by
  unfold nimInsert
  rw [alookup_cons]
  by_cases h : k = k'
  · simp [h]
  · have h' : k' ≠ k := fun hh => h hh.symm
    simp [h, alookup_eraseKey_ne _ _ _ h']

lemma alookup_setViewer (st : Store) (v : String) (nim : NodeIndexedMessages)
    (u : String) :
    alookup (setViewer st v nim) u = if v = u then some nim else alookup st u := by
  unfold setViewer
  rw [alookup_cons]
  by_cases h : v = u
  · simp [h]
  · have h' : u ≠ v := fun hh => h hh.symm
    simp [h, alookup_eraseKey_ne _ _ _ h']

lemma alookup_mapVals (g : String → NodeIndexedMessages → NodeIndexedMessages)
    (st : Store) (v : String) :
    alookup (mapVals g st) v = (alookup st v).map (g v) := by
  induction st with
  | nil => rfl
  | cons p t ih =>
    obtain ⟨a, b⟩ := p
    by_cases h : a = v
    · subst h; simp [mapVals, alookup_cons]
    · simp only [mapVals, List.map_cons, alookup_cons, if_neg h] at ih ⊢
      exact ih

/-! ## Version-maximum lemmas -/

lemma omax_some_left : ∀ (a : Nat) (b : Option Nat),
    ∃ x, omax (some a) b = some x ∧ a ≤ x
  | a, none => ⟨a, rfl, le_refl a⟩
  | a, some b => ⟨max a b, rfl, le_max_left a b⟩

lemma omax_some_right : ∀ (o : Option Nat) (b : Nat),
    ∃ x, omax o (some b) = some x ∧ b ≤ x
  | none, b => ⟨b, rfl, le_refl b⟩
  | some a, b => ⟨max a b, rfl, le_max_right a b⟩

lemma storeLatest_cons (a : String) (nim : NodeIndexedMessages) (t : Store)
    (k : MsgKey) :
    storeLatest ((a, nim) :: t) k =
      omax ((alookup nim k).map (·.version)) (storeLatest t k) := rfl

/-- Every stored version is bounded by the latest-known scan. -/
lemma version_le_storeLatest (st : Store) (v : String) (k : MsgKey)
    (mo : RaySyncMessage) (h : viewerFind st v k = some mo) :
    ∃ x, storeLatest st k = some x ∧ mo.version ≤ x := by
  induction st with
  | nil => simp [viewerFind, alookup] at h
  | cons p t ih =>
    obtain ⟨a, nim⟩ := p
    rw [viewerFind, alookup_cons] at h
    by_cases ha : a = v
    · rw [if_pos ha] at h
      simp only [Option.some_bind] at h
      rw [storeLatest_cons, h]
      exact omax_some_left mo.version (storeLatest t k)
    · rw [if_neg ha] at h
      rw [storeLatest_cons]
      obtain ⟨x, hx, hle⟩ := ih h
      rw [hx]
      obtain ⟨y, hy, hxy⟩ := omax_some_right ((alookup nim k).map (·.version)) x
      exact ⟨y, hy, le_trans hle hxy⟩

/-! ## Behaviour of the integration rule `Update1` -/

lemma Update1_stale (s : RaySyncerState) (from_node_id : String)
    (m : RaySyncMessage)
    (h : newerThan m.version (storeLatest s.cluster_messages_ m.key) = false) :
    Update1 s from_node_id m = s := by
  simp [Update1, h]

lemma cm_Update1_newer (s : RaySyncerState) (from_node_id : String)
    (m : RaySyncMessage)
    (h : newerThan m.version (storeLatest s.cluster_messages_ m.key) = true) :
    (Update1 s from_node_id m).cluster_messages_ =
      mapVals (fun v nim =>
        if v ≠ m.node_id ∧ v ≠ from_node_id then nimInsert nim m.key m
        else nim) s.cluster_messages_ := by
  simp [Update1, h]

/-- An accepted message is written exactly to the known viewers other than
its origin and the sender; on those sub-maps it lands under its key, every
other sub-map keeps its binding for that key. -/
lemma viewerFind_Update1_write (s : RaySyncerState) (from_node_id : String)
    (m : RaySyncMessage) (v : String) (nim : NodeIndexedMessages)
    (h : newerThan m.version (storeLatest s.cluster_messages_ m.key) = true)
    (hv : alookup s.cluster_messages_ v = some nim) :
    viewerFind (Update1 s from_node_id m).cluster_messages_ v m.key =
      (if v ≠ m.node_id ∧ v ≠ from_node_id then some m
       else alookup nim m.key) := by
  rw [viewerFind, cm_Update1_newer s from_node_id m h, alookup_mapVals, hv]
  by_cases hc : v ≠ m.node_id ∧ v ≠ from_node_id
  · simp [hc, alookup_nimInsert]
  · simp [hc]

/-- `Update1` never touches the sub-maps of the message's origin or of the
sender `from_node_id` (the no-echo rule). -/
lemma Update1_submap_eq (s : RaySyncerState) (from_node_id : String)
    (m : RaySyncMessage) (v : String)
    (hv : v = m.node_id ∨ v = from_node_id) :
    alookup (Update1 s from_node_id m).cluster_messages_ v =
      alookup s.cluster_messages_ v := by
  by_cases h : newerThan m.version (storeLatest s.cluster_messages_ m.key) = true
  · rw [cm_Update1_newer s from_node_id m h, alookup_mapVals]
    have hc : ¬(v ≠ m.node_id ∧ v ≠ from_node_id) := by
      rcases hv with hv | hv <;> simp [hv]
    cases alookup s.cluster_messages_ v <;> simp [hc]
  · rw [Update1_stale s from_node_id m (by simpa using h)]

/-- Case analysis on a binding found after `Update1`: it is either the
freshly accepted message (written under its key, away from its origin and
the sender) or a binding that was already there. -/
lemma viewerFind_Update1_cases (s : RaySyncerState) (from_node_id : String)
    (m : RaySyncMessage) (v : String) (k : MsgKey) (x : RaySyncMessage)
    (h : viewerFind (Update1 s from_node_id m).cluster_messages_ v k = some x) :
    (x = m ∧ k = m.key ∧ v ≠ m.node_id ∧ v ≠ from_node_id) ∨
      viewerFind s.cluster_messages_ v k = some x := by
  by_cases hn : newerThan m.version (storeLatest s.cluster_messages_ m.key) = true
  · rw [viewerFind, cm_Update1_newer s from_node_id m hn, alookup_mapVals] at h
    cases hv : alookup s.cluster_messages_ v with
    | none => rw [hv] at h; simp at h
    | some nim =>
        rw [hv] at h
        replace h : alookup
            (if v ≠ m.node_id ∧ v ≠ from_node_id then nimInsert nim m.key m
             else nim) k = some x := h
        by_cases hc : v ≠ m.node_id ∧ v ≠ from_node_id
        · rw [if_pos hc, alookup_nimInsert] at h
          by_cases hk : m.key = k
          · rw [if_pos hk] at h
            exact Or.inl ⟨(Option.some.inj h).symm, hk.symm, hc.1, hc.2⟩
          · rw [if_neg hk] at h
            exact Or.inr (by rw [viewerFind, hv, Option.some_bind]; exact h)
        · rw [if_neg hc] at h
          exact Or.inr (by rw [viewerFind, hv, Option.some_bind]; exact h)
  · rw [Update1_stale s from_node_id m (by simpa using hn)] at h
    exact Or.inr h

/-- A stored binding is never replaced by a strictly-older message: after any
single `Update1`, the binding for a key can only keep its version or grow,
and when it changes it grows strictly. -/
lemma Update1_version_mono (s : RaySyncerState) (from_node_id : String)
    (m : RaySyncMessage) (v : String) (k : MsgKey)
    (mo mn : RaySyncMessage)
    (h1 : viewerFind s.cluster_messages_ v k = some mo)
    (h2 : viewerFind (Update1 s from_node_id m).cluster_messages_ v k = some mn) :
    mo.version ≤ mn.version ∧ (mn ≠ mo → mo.version < mn.version) := by
  by_cases hn : newerThan m.version (storeLatest s.cluster_messages_ m.key) = true
  · rcases viewerFind_Update1_cases s from_node_id m v k mn h2 with
      ⟨hm, hk, _, _⟩ | hold
    · obtain ⟨x, hx, hle⟩ := version_le_storeLatest _ v k mo h1
      rw [hk] at hx
      rw [hx] at hn
      have hlt : x < m.version := by simpa [newerThan] using hn
      have hmo : mo.version < mn.version := by
        rw [hm]; exact lt_of_le_of_lt hle hlt
      exact ⟨le_of_lt hmo, fun _ => hmo⟩
    · rw [h1] at hold
      cases Option.some.inj hold
      exact ⟨le_refl _, fun hne => absurd rfl hne⟩
  · rw [Update1_stale s from_node_id m (by simpa using hn), h1] at h2
    cases Option.some.inj h2
    exact ⟨le_refl _, fun hne => absurd rfl hne⟩

/-! ## Behaviour of drains and `AddNode` on the store -/

lemma cm_drain (s : RaySyncerState) (node_id : String) :
    (SyncMessages s node_id).2.cluster_messages_ =
      mapVals (fun v nim => if v = node_id then [] else nim)
        s.cluster_messages_ := rfl

lemma viewerFind_drain (s : RaySyncerState) (node_id : String) (v : String)
    (k : MsgKey) :
    viewerFind (SyncMessages s node_id).2.cluster_messages_ v k =
      if v = node_id then none else viewerFind s.cluster_messages_ v k := by
  rw [cm_drain, viewerFind, alookup_mapVals]
  by_cases h : v = node_id
  · cases alookup s.cluster_messages_ v <;> simp [h, alookup]
  · cases hv : alookup s.cluster_messages_ v <;>
      simp [h, viewerFind, hv]

lemma viewerFind_AddNode (s : RaySyncerState) (node_id : String) (v : String)
    (k : MsgKey) :
    viewerFind (AddNode s node_id).cluster_messages_ v k =
      if node_id = v then none else viewerFind s.cluster_messages_ v k := by
  show viewerFind (setViewer s.cluster_messages_ node_id []) v k = _
  rw [viewerFind, alookup_setViewer]
  by_cases h : node_id = v
  · simp [h, alookup]
  · simp [h, viewerFind]

/-! ## Run-level provenance and the no-self-echo invariant -/

/-- A binding found after one operation either was already present, or the
operation is an `update` that ingested exactly that message, stored under its
own key and away from its origin. -/
lemma viewerFind_applyOp_cases (s : RaySyncerState) (op : SyncOp) (v : String)
    (k : MsgKey) (x : RaySyncMessage)
    (h : viewerFind (applyOp s op).cluster_messages_ v k = some x) :
    viewerFind s.cluster_messages_ v k = some x ∨
      ∃ f, op = SyncOp.update f x ∧ x.key = k ∧ x.node_id ≠ v := by
  cases op with
  | update f m =>
      rcases viewerFind_Update1_cases s f m v k x h with ⟨hm, hk, hv, _⟩ | hold
      · subst hm
        exact Or.inr ⟨f, rfl, hk.symm, fun hh => hv hh.symm⟩
      · exact Or.inl hold
  | drain nid =>
      rw [show applyOp s (SyncOp.drain nid) = (SyncMessages s nid).2 from rfl,
        viewerFind_drain] at h
      by_cases hv : v = nid
      · rw [if_pos hv] at h; exact absurd h (by simp)
      · rw [if_neg hv] at h; exact Or.inl h
  | addNode nid =>
      rw [show applyOp s (SyncOp.addNode nid) = AddNode s nid from rfl,
        viewerFind_AddNode] at h
      by_cases hv : nid = v
      · rw [if_pos hv] at h; exact absurd h (by simp)
      · rw [if_neg hv] at h; exact Or.inl h

/-- Run-level provenance: any binding reachable by a sequence of operations
was either in the start state or was ingested by one of the `update`
operations of the run. -/
lemma viewerFind_runOps_cases (ops : List SyncOp) : ∀ (s : RaySyncerState)
    (v : String) (k : MsgKey) (x : RaySyncMessage),
    viewerFind (runOps s ops).cluster_messages_ v k = some x →
    viewerFind s.cluster_messages_ v k = some x ∨
      ∃ f, SyncOp.update f x ∈ ops ∧ x.key = k ∧ x.node_id ≠ v := by
  induction ops with
  | nil => intro s v k x h; exact Or.inl h
  | cons op rest ih =>
      intro s v k x h
      rcases ih (applyOp s op) v k x h with hmid | ⟨f, hf, hk, hv⟩
      · rcases viewerFind_applyOp_cases s op v k x hmid with hold | ⟨f, hf, hk, hv⟩
        · exact Or.inl hold
        · exact Or.inr ⟨f, by simp [hf], hk, hv⟩
      · exact Or.inr ⟨f, by simp [hf], hk, hv⟩

/-! ## Writer-loop lemmas -/

lemma syncMessages_fst (s : RaySyncerState) (node_id : String) :
    (SyncMessages s node_id).1 =
      ((alookup s.cluster_messages_ node_id).getD []).map (·.2) := rfl

lemma collectReports_fold_unbound (l : List Nat) (s : RaySyncerState)
    (h : ∀ i, s.reporters_ i = none) :
    l.foldl (fun s i =>
      match s.reporters_ i with
      | none => s
      | some r => Update1 s (GetNodeId s) r.snapshot) s = s := by
  induction l with
  | nil => rfl
  | cons a t ih => simp only [List.foldl_cons, h a]; exact ih

/-- A collect tick with no bound reporter ingests nothing. -/
lemma collectReports_unbound (kArraySize : Nat) (s : RaySyncerState)
    (h : ∀ i, s.reporters_ i = none) : collectReports kArraySize s = s :=
  collectReports_fold_unbound (List.range kArraySize) s h

/-- A collect tick over a single slot bound to reporter `r` ingests exactly
`r`'s snapshot with `from = GetNodeId`. -/
lemma collectReports_one (s : RaySyncerState) (r : Reporter)
    (h : s.reporters_ 0 = some r) :
    collectReports 1 s = Update1 s (GetNodeId s) r.snapshot := by
  rw [collectReports, show List.range 1 = [0] from rfl]
  simp only [List.foldl_cons, List.foldl_nil, h]

lemma SendMessage_empty (kArraySize : Nat) (p : ProtocolState)
    (h : (SyncMessages (collectReports kArraySize p.inst) p.node_id).1 = []) :
    SendMessage kArraySize p =
      ({ p with
          inst := (SyncMessages (collectReports kArraySize p.inst) p.node_id).2,
          buffer := [] }, [.armTimer 100]) := by
  simp only [SendMessage, h, List.isEmpty_nil, if_pos, OnWriteDone, if_true]

lemma SendMessage_nonempty (kArraySize : Nat) (p : ProtocolState)
    (buf : List RaySyncMessage)
    (h : (SyncMessages (collectReports kArraySize p.inst) p.node_id).1 = buf)
    (hne : buf ≠ []) :
    SendMessage kArraySize p =
      ({ p with
          inst := (SyncMessages (collectReports kArraySize p.inst) p.node_id).2,
          buffer := buf, out_message := buf }, [.startWrite buf]) := by
  have hbe : buf.isEmpty = false := by
    cases buf with
    | nil => exact absurd rfl hne
    | cons a t => rfl
  simp only [SendMessage, h, hbe, Bool.false_eq_true, if_false]

lemma machineLB_proto (m : WriterMachine) (p : ProtocolState) :
    machineLB { m with proto := p } = machineLB m := rfl

/-- `runSend` keeps the clock, and when the loop was entitled to send now
(`machineLB m ≤ now`) every write it emits and the next lower bound stay at
or above the old bound. -/
lemma runSend_lb (kArraySize : Nat) (m : WriterMachine)
    (hlb : machineLB m ≤ m.now) :
    machineLB m ≤ machineLB (runSend kArraySize m).1 ∧
      ∀ t ∈ (runSend kArraySize m).2, machineLB m ≤ t := by
  unfold runSend
  split
  · constructor
    · exact hlb
    · intro t ht
      simp only [List.mem_singleton] at ht
      subst ht; exact hlb
  · constructor
    · exact le_trans hlb (Nat.le_add_right _ _)
    · intro t ht; simp at ht
  · constructor
    · exact le_of_eq rfl
    · intro t ht; simp at ht

/-- One writer step never lowers the write-time bound, and every write it
emits respects the bound. -/
lemma stepW_lb (kArraySize : Nat) (m : WriterMachine) (o : OracleInput) :
    machineLB m ≤ machineLB (stepW kArraySize m o).1 ∧
      ∀ t ∈ (stepW kArraySize m o).2, machineLB m ≤ t := by
  obtain ⟨p, now, w⟩ := m
  cases w with
  | onTimer d =>
      have h := runSend_lb kArraySize
        ⟨{ p with inst := o.inject.foldl (fun s fm => Update1 s fm.1 fm.2) p.inst },
         d, .onTimer d⟩ (le_refl d)
      exact h
  | onWrite =>
      by_cases hok : o.ok = true
      · simp only [stepW, hok, if_true]
        refine ⟨?_, by intro t ht; simp at ht⟩
        show now ≤ now + o.delay + 100
        omega
      · have hok' : o.ok = false := by
          cases hh : o.ok
          · rfl
          · exact absurd hh hok
        simp only [stepW, hok', Bool.false_eq_true, if_false]
        have h := runSend_lb kArraySize
          ⟨{ p with inst := o.inject.foldl (fun s fm => Update1 s fm.1 fm.2) p.inst },
           now + o.delay, .onWrite⟩ (le_refl _)
        exact ⟨le_trans (Nat.le_add_right now o.delay) h.1,
          fun t ht => le_trans (Nat.le_add_right now o.delay) (h.2 t ht)⟩

/-- Every write a run emits happens at or after the machine's bound. -/
lemma writeTimes_lb (kArraySize : Nat) : ∀ (os : List OracleInput)
    (m : WriterMachine) (t : Nat),
    t ∈ writeTimes kArraySize m os → machineLB m ≤ t := by
  intro os
  induction os with
  | nil => intro m t ht; simp [writeTimes] at ht
  | cons o rest ih =>
      intro m t ht
      rw [writeTimes, List.mem_append] at ht
      rcases ht with ht | ht
      · exact (stepW_lb kArraySize m o).2 t ht
      · exact le_trans (stepW_lb kArraySize m o).1
          (ih (stepW kArraySize m o).1 t ht)

/-- When the drain after the collect phase is empty, `runSend` skips the
write and arms the 100 ms cool-down directly. -/
lemma runSend_empty (kArraySize : Nat) (m : WriterMachine)
    (h : (SyncMessages (collectReports kArraySize m.proto.inst)
            m.proto.node_id).1 = []) :
    runSend kArraySize m =
      ({ m with proto := (SendMessage kArraySize m.proto).1,
                waiting := .onTimer (m.now + 100) }, []) := by
  have hs := SendMessage_empty kArraySize m.proto h
  unfold runSend
  rw [hs]

/-! ## Claims -/

/-- C1 (amended): a message whose version is not strictly greater than the
latest-known version for its `(origin_node, component)` key is discarded
unchanged; a stored entry is never overwritten by a strictly-older version;
and every stored message was ingested by some `Update` of the run (so the
stored version is at most the maximum ever ingested — the exact-maximum
form of the claim is refuted by `C1_max_version_counterexample`). -/
theorem C1_version_discipline :
    (∀ (s : RaySyncerState) (from_node_id : String) (m : RaySyncMessage),
      newerThan m.version (storeLatest s.cluster_messages_ m.key) = false →
      Update1 s from_node_id m = s) ∧
    (∀ (s : RaySyncerState) (from_node_id : String) (m : RaySyncMessage)
      (v : String) (k : MsgKey) (mo mn : RaySyncMessage),
      viewerFind s.cluster_messages_ v k = some mo →
      viewerFind (Update1 s from_node_id m).cluster_messages_ v k = some mn →
      mo.version ≤ mn.version) ∧
    (∀ (nid : String) (ops : List SyncOp) (v : String) (k : MsgKey)
      (x : RaySyncMessage),
      viewerFind (runOps (initialState nid) ops).cluster_messages_ v k = some x →
      ∃ f, SyncOp.update f x ∈ ops) := by
  refine ⟨Update1_stale, ?_, ?_⟩
  · intro s f m v k mo mn h1 h2
    exact (Update1_version_mono s f m v k mo mn h1 h2).1
  · intro nid ops v k x h
    rcases viewerFind_runOps_cases ops (initialState nid) v k x h with
      h0 | ⟨f, hf, _, _⟩
    · exact absurd h0 (by simp [initialState, viewerFind, alookup])
    · exact ⟨f, hf⟩

/-- Witness for C1: next to the stored version 5 of `(A, 0)`, version 4 is
stale and its ingestion leaves the store untouched. -/
theorem C1_version_discipline_witness :
    newerThan m4A.version (storeLatest sC1w.cluster_messages_ m4A.key) = false ∧
    Update1 sC1w "X" m4A = sC1w :=
  ⟨by rfl, C1_version_discipline.1 sC1w "X" m4A (by rfl)⟩

/-- C1 counterexample: after `opsC1` (version 5 of `(C, 0)` from `X`, then
version 7 from `Y`), viewer `Y` still stores version 5 although version 7 —
the maximum ever ingested for that key — was accepted (viewer `X` holds it).
So the stored version at a viewer does not always equal the maximum version
ever ingested for its key. -/
theorem C1_max_version_counterexample :
    viewerFind (runOps (initialState "H") opsC1).cluster_messages_
        "Y" ("C", 0) = some mv5 ∧
    viewerFind (runOps (initialState "H") opsC1).cluster_messages_
        "X" ("C", 0) = some mv7 ∧
    SyncOp.update "Y" mv7 ∈ opsC1 ∧
    mv5.version = 5 ∧ mv7.version = 7 ∧ mv5.version ≠ mv7.version := by
  refine ⟨by rfl, by rfl, by decide, rfl, rfl, by decide⟩

/-- C2: an accepted message is written for exactly the known viewers other
than its origin and the sender; hence (inductively from the empty store) no
reachable store holds an entry whose origin equals its viewer, and an
`Update` never changes the sender's own drain. -/
theorem C2_no_echo :
    (∀ (s : RaySyncerState) (from_node_id : String) (m : RaySyncMessage)
      (v : String) (nim : NodeIndexedMessages),
      newerThan m.version (storeLatest s.cluster_messages_ m.key) = true →
      alookup s.cluster_messages_ v = some nim →
      viewerFind (Update1 s from_node_id m).cluster_messages_ v m.key =
        (if v ≠ m.node_id ∧ v ≠ from_node_id then some m
         else alookup nim m.key)) ∧
    (∀ (nid : String) (ops : List SyncOp) (v : String) (k : MsgKey)
      (x : RaySyncMessage),
      viewerFind (runOps (initialState nid) ops).cluster_messages_ v k = some x →
      x.node_id ≠ v) ∧
    (∀ (s : RaySyncerState) (from_node_id : String) (m : RaySyncMessage),
      (SyncMessages (Update1 s from_node_id m) from_node_id).1 =
        (SyncMessages s from_node_id).1) := by
  refine ⟨viewerFind_Update1_write, ?_, ?_⟩
  · intro nid ops v k x h
    rcases viewerFind_runOps_cases ops (initialState nid) v k x h with
      h0 | ⟨_, _, _, hv⟩
    · exact absurd h0 (by simp [initialState, viewerFind, alookup])
    · exact hv
  · intro s f m
    rw [syncMessages_fst, syncMessages_fst, Update1_submap_eq s f m f (Or.inr rfl)]

/-- Witness for C2: on a store with empty viewers `B` and `X`, ingesting
origin `A`'s version 1 from `X` writes it for `B` (and, by the same
equation, not for `A` or `X`). -/
theorem C2_no_echo_witness :
    newerThan mA1.version (storeLatest sC2w.cluster_messages_ mA1.key) = true ∧
    alookup sC2w.cluster_messages_ "B" = some [] ∧
    viewerFind (Update1 sC2w "X" mA1).cluster_messages_ "B" mA1.key =
      (if "B" ≠ mA1.node_id ∧ "B" ≠ "X" then some mA1
       else alookup ([] : NodeIndexedMessages) mA1.key) :=
  ⟨by rfl, by rfl, C2_no_echo.1 sC2w "X" mA1 "B" [] (by rfl) (by rfl)⟩

/-- C3 (amended): `Accept` registers the fresh reactor only when no reactor
exists for the peer id (`emplace` semantics); an existing reactor is kept —
not displaced, and nothing asks it to finish — and `Accept` returns the
previously registered reactor; in both cases `AddNode` resets the peer's
store sub-map, and the table keeps at most one reactor per peer id. -/
theorem C3_accept_emplace (s : RaySyncerState) (node_id : String) (fresh : Nat) :
    (alookup s.followers_ node_id = none →
       (Accept s node_id fresh).1.followers_ = (node_id, fresh) :: s.followers_ ∧
       (Accept s node_id fresh).2 = fresh) ∧
    (∀ old, alookup s.followers_ node_id = some old →
       (Accept s node_id fresh).1.followers_ = s.followers_ ∧
       (Accept s node_id fresh).2 = old) ∧
    (Accept s node_id fresh).1.cluster_messages_ =
       setViewer s.cluster_messages_ node_id [] := by
  refine ⟨?_, ?_, ?_⟩
  · intro h
    simp only [Accept, h]
    exact ⟨rfl, by simp [alookup_cons]⟩
  · intro old h
    simp only [Accept, h]
    exact ⟨rfl, by simp [h]⟩
  · rcases hh : alookup s.followers_ node_id with _ | old <;>
      simp only [Accept, hh] <;> rfl

/-- Witness for C3: on a hub already holding reactor 1 for `A`, accepting a
new stream (fresh reactor 2) keeps the followers table unchanged and hands
back the old reactor 1. -/
theorem C3_accept_emplace_witness :
    alookup sC3.followers_ "A" = some 1 ∧
    (Accept sC3 "A" 2).1.followers_ = sC3.followers_ ∧
    (Accept sC3 "A" 2).2 = 1 :=
  ⟨by rfl, ((C3_accept_emplace sC3 "A" 2).2.1 1 (by rfl)).1,
   ((C3_accept_emplace sC3 "A" 2).2.1 1 (by rfl)).2⟩

/-- C3 counterexample: with reactor 1 registered for peer `A`, `Accept` of a
fresh reactor 2 leaves `followers_` holding reactor 1 and even returns it —
the new reactor does not displace the old one. -/
theorem C3_emplace_keeps_old :
    (Accept sC3 "A" 2).1.followers_ = [("A", 1)] ∧
    (Accept sC3 "A" 2).2 = 1 ∧ (1 : Nat) ≠ 2 :=
  ⟨by rfl, by rfl, by decide⟩

/-- C4 (amended): `OnDone` removes the reactor from the parent syncer's
`followers_` table, but it does not drop the peer's viewer sub-map — the
message store is left exactly as it was. -/
theorem C4_ondone_keeps_store (s : RaySyncerState) (node_id : String) :
    alookup (reactorOnDone s node_id).followers_ node_id = none ∧
    (reactorOnDone s node_id).cluster_messages_ = s.cluster_messages_ :=
  ⟨alookup_eraseKey_self node_id s.followers_, rfl⟩

/-- C4 counterexample: after `A`'s reactor runs `OnDone`, the followers
table no longer has `A`, but the store still holds `A`'s sub-map with its
queued message, and a later accepted snapshot still queues an entry for the
disconnected peer `A`. -/
theorem C4_store_leak_counterexample :
    (reactorOnDone sC4 "A").followers_ = [] ∧
    alookup (reactorOnDone sC4 "A").cluster_messages_ "A" =
      some [(("C", 0), mv5)] ∧
    viewerFind (Update1 (reactorOnDone sC4 "A") "D" mv7).cluster_messages_
      "A" ("C", 0) = some mv7 :=
  ⟨by rfl, by rfl, by rfl⟩

/-- C5 (amended): when the inbound stream's metadata lacks `node_id`,
`StartSync` hits the fatal `RAY_CHECK` (process abort) — no reactor is
created, but no invalid-argument RPC status is returned either; when the key
is present, the response metadata `node_id = self` is attached and the
reactor from `Accept(peer)` is returned. -/
theorem C5_startsync_check (s : RaySyncerState)
    (clientMetadata : List (String × String)) (fresh : Nat) :
    (alookup clientMetadata "node_id" = none →
       StartSync s clientMetadata fresh = .fatalCheck) ∧
    (∀ nid, alookup clientMetadata "node_id" = some nid →
       StartSync s clientMetadata fresh =
         .reactor (Accept s nid fresh).1 (Accept s nid fresh).2
           [("node_id", GetNodeId s)]) := by
  constructor
  · intro h; simp only [StartSync, h]
  · intro nid h; simp only [StartSync, h]

/-- Witness for C5: metadata carrying `node_id = A` yields the reactor from
`Accept` plus response metadata `node_id = self`. -/
theorem C5_startsync_check_witness :
    alookup [("node_id", "A")] "node_id" = some "A" ∧
    StartSync sC5 [("node_id", "A")] 7 =
      .reactor (Accept sC5 "A" 7).1 (Accept sC5 "A" 7).2
        [("node_id", GetNodeId sC5)] :=
  ⟨by rfl, (C5_startsync_check sC5 [("node_id", "A")] 7).2 "A" (by rfl)⟩

/-- C5 counterexample: with no metadata at all, `StartSync` ends in the
fatal check — a process abort, not an invalid-argument RPC rejection. -/
theorem C5_missing_metadata_fatal :
    StartSync sC5 [] 5 = StartSyncResult.fatalCheck := rfl

/-- C6 (amended): `Register` assigns both slots unconditionally; a second
`Register` on the same slot silently rebinds it — the composite equals a
single registration of the second binding, and no error occurs. -/
theorem C6_register_rebinds (s : RaySyncerState) (component_id : Nat)
    (r1 : Option Reporter) (v1 : Option Receiver)
    (r2 : Option Reporter) (v2 : Option Receiver) :
    Register (Register s component_id r1 v1) component_id r2 v2 =
      Register s component_id r2 v2 := by
  simp [Register, Function.update_idem]

/-- C6 counterexample: a second `Register` on slot 0 returns normally and
rebinds the slot to the second reporter — no abort happens. -/
theorem C6_duplicate_register_counterexample :
    (Register (Register (initialState "H") 0 (some r1C6) none) 0
        (some r2C6) none).reporters_ 0 = some r2C6 ∧
    r1C6 ≠ r2C6 := by
  refine ⟨by simp [Register, initialState], by decide⟩

/-- C7 (amended): a failed write does not tear the reactor down — the state
(including `followers_` and the store) is untouched and the only effect is
an immediate re-dispatch of `SendMessage`, i.e. the write path is retried;
only a successful write arms the cool-down timer. -/
theorem C7_write_failure_retries (p : ProtocolState) :
    OnWriteDone false p = (p, [.dispatchSendMessage]) ∧
    OnWriteDone true p = (p, [.armTimer 100]) :=
  ⟨rfl, rfl⟩

/-- C7 counterexample: on a concrete reactor whose syncer still lists peer
`A` as follower and viewer, a failed write leaves both in place and
schedules a retry of `SendMessage` — no `Closing`, no viewer removal, no
reactor drop. -/
theorem C7_no_teardown_counterexample :
    (OnWriteDone false pC7).1 = pC7 ∧
    (OnWriteDone false pC7).2 = [Eff.dispatchSendMessage] ∧
    alookup (OnWriteDone false pC7).1.inst.followers_ "A" = some 1 ∧
    alookup (OnWriteDone false pC7).1.inst.cluster_messages_ "A" = some [] :=
  ⟨rfl, rfl, rfl, rfl⟩

/-- C8: a collect-and-send tick asks each bound reporter slot for its
snapshot and ingests it with `from = GetNodeId` (unbound slots contribute
nothing); it then drains the store for the peer, and writes a single frame
holding exactly the drained messages precisely when the drain is
non-empty — an empty drain skips the write and arms the cool-down. -/
theorem C8_sendmessage (kArraySize : Nat) (p : ProtocolState) :
    (∀ s : RaySyncerState, (∀ i, s.reporters_ i = none) →
        collectReports kArraySize s = s) ∧
    (∀ (s : RaySyncerState) (r : Reporter), s.reporters_ 0 = some r →
        collectReports 1 s = Update1 s (GetNodeId s) r.snapshot) ∧
    ((SyncMessages (collectReports kArraySize p.inst) p.node_id).1 = [] →
        SendMessage kArraySize p =
          ({ p with
              inst := (SyncMessages (collectReports kArraySize p.inst)
                p.node_id).2,
              buffer := [] }, [.armTimer 100])) ∧
    (∀ buf, (SyncMessages (collectReports kArraySize p.inst) p.node_id).1 = buf →
        buf ≠ [] →
        SendMessage kArraySize p =
          ({ p with
              inst := (SyncMessages (collectReports kArraySize p.inst)
                p.node_id).2,
              buffer := buf, out_message := buf }, [.startWrite buf])) :=
  ⟨fun s h => collectReports_unbound kArraySize s h,
   fun s r h => collectReports_one s r h,
   fun h => SendMessage_empty kArraySize p h,
   fun buf h hne => SendMessage_nonempty kArraySize p buf h hne⟩

/-- Witness for C8: on a fresh syncer nothing is drained for peer `A`, so
the tick skips the write and arms the 100 ms cool-down. -/
theorem C8_sendmessage_witness :
    (SyncMessages (collectReports 0 pC8.inst) pC8.node_id).1 = [] ∧
    SendMessage 0 pC8 =
      ({ pC8 with
          inst := (SyncMessages (collectReports 0 pC8.inst) pC8.node_id).2,
          buffer := [] }, [.armTimer 100]) :=
  ⟨by rfl, (C8_sendmessage 0 pC8).2.2.1 (by rfl)⟩

/-- C9 (amended): after a write completes successfully the machine emits
nothing and arms the cool-down at completion time + 100 ms, and every later
write of the run happens at or after that deadline; an empty drain skips the
write and arms the same 100 ms cool-down directly. (The "consecutive writes
are always separated by the cool-down" conclusion is refuted by
`C9_immediate_retry_counterexample`: a failed write retries immediately.) -/
theorem C9_cooldown (kArraySize : Nat) (m : WriterMachine) (o : OracleInput)
    (os : List OracleInput) (hw : m.waiting = .onWrite) (hok : o.ok = true) :
    (stepW kArraySize m o).2 = [] ∧
    (stepW kArraySize m o).1.waiting = .onTimer (m.now + o.delay + 100) ∧
    (∀ t ∈ writeTimes kArraySize (stepW kArraySize m o).1 os,
       m.now + o.delay + 100 ≤ t) ∧
    (∀ m' : WriterMachine,
       (SyncMessages (collectReports kArraySize m'.proto.inst)
          m'.proto.node_id).1 = [] →
       runSend kArraySize m' =
         ({ m' with proto := (SendMessage kArraySize m'.proto).1,
                    waiting := .onTimer (m'.now + 100) }, [])) := by
  obtain ⟨p, now, w⟩ := m
  subst hw
  have hstep : stepW kArraySize ⟨p, now, .onWrite⟩ o =
      ({ proto := { p with
            inst := o.inject.foldl (fun s fm => Update1 s fm.1 fm.2) p.inst },
         now := now + o.delay, waiting := .onTimer (now + o.delay + 100) },
       []) := by
    simp only [stepW, hok, if_true]
  refine ⟨by rw [hstep], by rw [hstep], ?_, ?_⟩
  · intro t ht
    rw [hstep] at ht
    exact writeTimes_lb kArraySize os _ t ht
  · intro m' h
    exact runSend_empty kArraySize m' h

/-- Witness for C9: a write completing successfully after 5 ms at time 0
emits nothing and arms the cool-down for time 105. -/
theorem C9_cooldown_witness :
    mC9w.waiting = Waiting.onWrite ∧
    (stepW 0 mC9w ⟨[], 5, true⟩).2 = [] ∧
    (stepW 0 mC9w ⟨[], 5, true⟩).1.waiting = .onTimer (mC9w.now + 5 + 100) :=
  ⟨rfl, (C9_cooldown 0 mC9w ⟨[], 5, true⟩ [] rfl rfl).1,
   (C9_cooldown 0 mC9w ⟨[], 5, true⟩ [] rfl rfl).2.1⟩

/-- C9 counterexample: in a run where the write issued at time 0 fails after
10 ms and another link has queued a fresh snapshot meanwhile, the retry
writes again at time 10 — consecutive writes 100 ms apart is violated. -/
theorem C9_immediate_retry_counterexample :
    writeTimes 0 mC9 [oC9a, oC9b] = [0, 10] ∧ ¬ (0 + 100 ≤ 10) :=
  ⟨by rfl, by decide⟩

/-- C10: a successful read ingests the inbound batch through
`Update(peer, batch)` (a fold of the integration rule over the frame),
clears the inbound frame and re-arms the read; a failed read re-arms the
read with the syncer state untouched. -/
theorem C10_onreaddone (p : ProtocolState) :
    OnReadDone true p =
      ({ p with inst := UpdateB p.inst p.node_id p.in_message,
                in_message := [] }, [.startRead]) ∧
    UpdateB p.inst p.node_id p.in_message =
      p.in_message.foldl (fun s m => Update1 s p.node_id m) p.inst ∧
    OnReadDone false p = (p, [.startRead]) ∧
    (OnReadDone false p).1.inst = p.inst :=
  ⟨rfl, rfl, rfl, rfl⟩

end RaySyncing
